import Mathlib

/-!
Verification of the ATM Milano Home Assistant integration
(custom_components/atm_milano), a shallow embedding in Lean 4.

The embedding covers the two core components named by the specification:

* the wait-message parser `parse_wait_message` and its helpers from
  `sensor.py` and `const.py` (the compiled regex `WAIT_MINUTES_PATTERN`,
  the fixed Italian status phrases, the `WaitStatus` enum), and
* the HTTP stop client `ATMClient.async_get_stop` from `api.py`,
  with the transport layer (aiohttp) abstracted as an explicit outcome
  value, and the per-line entity projection loop of `async_setup_entry`
  from `sensor.py`.

Strings are modelled over their ASCII fragment: the Python predicates
`\s` and `\d` of the regex, `str.strip`, `str.lower` and
`re.IGNORECASE` also accept some further Unicode characters, but every
string the integration compares against is ASCII, and all inputs used
in the theorems below are ASCII, where the embedding is exact.
-/

/-! ## Character classes (ASCII fragment of Python `\s`, `\d`, `str.lower`) -/

/-- ASCII fragment of the Python whitespace class `\s` (and of the set
stripped by `str.strip()`): space, tab, newline, carriage return,
vertical tab, form feed. -/
def isPySpace (c : Char) : Bool :=
  decide (c.toNat = 32 ∨ c.toNat = 9 ∨ c.toNat = 10 ∨ c.toNat = 13 ∨
          c.toNat = 11 ∨ c.toNat = 12)

/-- ASCII decimal digit, the ASCII fragment of the regex class `\d`. -/
def isDigitA (c : Char) : Bool :=
  decide (48 ≤ c.toNat ∧ c.toNat ≤ 57)

/-- ASCII fragment of Python `str.lower` applied to one character. -/
def pyLowerChar (c : Char) : Char :=
  if 65 ≤ c.toNat ∧ c.toNat ≤ 90 then Char.ofNat (c.toNat + 32) else c

/-- Python `str.lower` on a character list. -/
def pyLowerL (l : List Char) : List Char := l.map pyLowerChar

/-- Python `str.lower`. -/
def pyLower (s : String) : String := ⟨pyLowerL s.data⟩

/-- Python `str.strip()` on a character list: drop leading and trailing
whitespace. -/
def pyStripL (l : List Char) : List Char :=
  ((l.dropWhile isPySpace).reverse.dropWhile isPySpace).reverse

/-- Contiguous-substring test, the Python `in` operator on strings. -/
def containsSub (needle : List Char) : List Char → Bool
  | [] => needle.isEmpty
  | c :: rest => needle.isPrefixOf (c :: rest) || containsSub needle rest

/-- Python `needle in hay` on strings. -/
def pyIn (needle hay : String) : Bool := containsSub needle.data hay.data

/-- Numeric value of a digit string, as computed by Python `int` on the
captured group of the regex (all captured characters are digits). -/
def digitsToNat (l : List Char) : Nat :=
  l.foldl (fun a c => a * 10 + (c.toNat - 48)) 0

/-! ## const.py -/

/-- `const.py`: `STATUS_IN_ARRIVO = "in arrivo"`. -/
def STATUS_IN_ARRIVO : String := "in arrivo"

/-- `const.py`: `STATUS_RICALCOLO = "ricalcolo"`. -/
def STATUS_RICALCOLO : String := "ricalcolo"

/-- `const.py`: `STATUS_SOPPRESSA = "soppressa"`. -/
def STATUS_SOPPRESSA : String := "soppressa"

/-- `const.py`: the `WaitStatus` string enum.  Its members are exactly
`MINUTES`, `ARRIVING`, `UPDATING`, `CANCELLED` and `UNKNOWN`; in
particular there are no members named `UNKNOWN_TEXT`, `IN_ARRIVO`,
`RICALCOLO` or `SOPPRESSA`, although `sensor.py` refers to such members. -/
inductive WaitStatus where
  | MINUTES
  | ARRIVING
  | UPDATING
  | CANCELLED
  | UNKNOWN
  deriving DecidableEq, Repr

/-- The string value of each `WaitStatus` member. -/
def WaitStatus.value : WaitStatus → String
  | .MINUTES => "minutes"
  | .ARRIVING => "arriving"
  | .UPDATING => "updating"
  | .CANCELLED => "cancelled"
  | .UNKNOWN => "unknown"

/-- `const.py`: `WAIT_MINUTES_PATTERN = re.compile(r"^\s*(\d+)\s*min", re.IGNORECASE)`
applied through `.match` (anchored at the start of the text), returning
the integer value of the captured digit group on success.  The greedy
classes of this pattern coincide with maximal munch because `\s`, `\d`
and the letter `min` are pairwise disjoint character sets. -/
def matchWaitMinutes (l : List Char) : Option Nat :=
  let afterWs := l.dropWhile isPySpace
  let ds := afterWs.takeWhile isDigitA
  if ds.isEmpty then none
  else
    match (afterWs.dropWhile isDigitA).dropWhile isPySpace with
    | c1 :: c2 :: c3 :: _ =>
      if (c1 = 'm' ∨ c1 = 'M') ∧ (c2 = 'i' ∨ c2 = 'I') ∧ (c3 = 'n' ∨ c3 = 'N')
      then some (digitsToNat ds) else none
    | _ => none

/-! ## sensor.py: the wait-message parser -/

/-- The Python field `state_value: int | str` of `ParsedWaitMessage`. -/
inductive StateValue where
  | int (n : Nat)
  | str (s : String)
  deriving DecidableEq, Repr

/-- `sensor.py`: the `ParsedWaitMessage` dataclass. -/
structure ParsedWaitMessage where
  raw_text : String
  state_value : StateValue
  wait_minutes : Option Nat
  status : WaitStatus
  unit : Option String
  deriving DecidableEq, Repr

/-- `sensor.py`: `parse_wait_message`.  The source binds
`raw_text = wait_msg.strip()` and `lower_text = raw_text.lower()` once;
both are pure, so they are inlined here.

Every branch of the source except the numeric-minutes branch constructs
its result with a `WaitStatus` member (`UNKNOWN_TEXT`, `IN_ARRIVO`,
`RICALCOLO`, `SOPPRESSA`) that does not exist on the enum defined in
`const.py`, so at run time those branches raise
`AttributeError(<member name>)` instead of returning; this is modelled
by `Except.error` carrying the exception text.  Only the branch guarded
by `WAIT_MINUTES_PATTERN.match` returns normally. -/
def parse_wait_message : Option String → Except String ParsedWaitMessage
  | none => .error "AttributeError: UNKNOWN_TEXT"
  | some wait_msg =>
    match matchWaitMinutes (pyStripL wait_msg.data) with
    | some minutes =>
      .ok ⟨⟨pyStripL wait_msg.data⟩, .int minutes, some minutes, .MINUTES, some "min"⟩
    | none =>
      if pyLowerL (pyStripL wait_msg.data) = STATUS_IN_ARRIVO.data then
        .error "AttributeError: IN_ARRIVO"
      else if pyLowerL (pyStripL wait_msg.data) = STATUS_RICALCOLO.data then
        .error "AttributeError: RICALCOLO"
      else if pyLowerL (pyStripL wait_msg.data) = STATUS_SOPPRESSA.data then
        .error "AttributeError: SOPPRESSA"
      else
        .error "AttributeError: UNKNOWN_TEXT"

/-! ## api.py: the stop client -/

/-- A JSON-like structured value, the result of `await response.json()`
when the body parses.  Numbers are modelled as integers (the upstream
payload carries integer codes); objects keep their fields in order with
distinct keys, as a Python dict does. -/
inductive JsonValue where
  | obj (fields : List (String × JsonValue))
  | arr (items : List JsonValue)
  | str (s : String)
  | num (n : Int)
  | bool (b : Bool)
  | null
  deriving Repr

/-- The outcome of `await response.json()` in aiohttp: either the parsed
body, or `aiohttp.ContentTypeError` (a subclass of `aiohttp.ClientError`)
when the Content-Type header is not the expected `application/json`, or
`json.JSONDecodeError` (a subclass of `ValueError`, NOT of
`aiohttp.ClientError`) when the body text is not valid JSON. -/
inductive JsonOutcome where
  | ok (j : JsonValue)
  | contentTypeError (msg : String)
  | decodeError (msg : String)
  deriving Repr

/-- One HTTP exchange as observed by `async_get_stop`: the status code,
the `Content-Type` header (defaulted to `""` by the source when absent),
the body text as read by `response.text()`, and the outcome of
`response.json()`. -/
structure HttpResponse where
  status : Nat
  contentType : String
  text : String
  jsonBody : JsonOutcome

/-- What the transport layer (the `session.get` inside
`asyncio.timeout`) produces: a timeout (`asyncio.TimeoutError`), a
connection-level failure (`aiohttp.ClientError`), or a response. -/
inductive Transport where
  | timeout
  | netError (msg : String)
  | response (r : HttpResponse)

/-- The error taxonomy of `api.py`: `connectionError` stands for
`ATMApiConnectionError`, `invalidStopError` for `ATMApiInvalidStopError`,
and `apiError` for the base class `ATMApiError` raised directly. -/
inductive AtmError where
  | connectionError (msg : String)
  | invalidStopError (msg : String)
  | apiError (msg : String)
  deriving Repr

/-- Result of one call to `async_get_stop`: a returned payload, one of
the three typed errors of `api.py`, or an exception that escapes the
`except asyncio.TimeoutError` / `except aiohttp.ClientError` clauses
untyped. -/
inductive FetchOutcome where
  | ok (data : JsonValue)
  | err (e : AtmError)
  | uncaught (msg : String)
  deriving Repr

/-- Key-presence test on a parsed payload, Python `"k" in data` for a
dict. -/
def jsonHasKey (fields : List (String × JsonValue)) (k : String) : Bool :=
  fields.any (fun p => p.1 == k)

/-- `api.py`: `ATMClient.async_get_stop`, classifying one transport
outcome exactly as the source does:

* `asyncio.TimeoutError` and `aiohttp.ClientError` are caught and
  re-raised as `ATMApiConnectionError`;
* status 404 raises `ATMApiInvalidStopError`, 403 raises
  `ATMApiConnectionError`, any other non-200 raises `ATMApiError` with
  the status code;
* a 200 response whose Content-Type contains `"text/html"` has its body
  inspected: an access-denied marker raises `ATMApiConnectionError`,
  otherwise `ATMApiError`;
* otherwise the body is parsed: `aiohttp.ContentTypeError` is an
  `aiohttp.ClientError` and so is converted to `ATMApiConnectionError`,
  while `json.JSONDecodeError` is caught by neither `except` clause and
  escapes untyped;
* the parsed payload must be a dict containing `"Description"` and
  `"Lines"`; otherwise `ATMApiError` names the problem. -/
def async_get_stop (stop_id : String) (t : Transport) : FetchOutcome :=
  match t with
  | .timeout => .err (.connectionError "Timeout connecting to ATM Milano API")
  | .netError m =>
    .err (.connectionError ("Error connecting to ATM Milano API: " ++ m))
  | .response r =>
    if r.status = 404 then
      .err (.invalidStopError ("Stop ID " ++ stop_id ++ " not found"))
    else if r.status = 403 then
      .err (.connectionError "Access denied by ATM Milano API (403 Forbidden)")
    else if r.status ≠ 200 then
      .err (.apiError ("API returned status " ++ toString r.status))
    else if pyIn "text/html" r.contentType then
      if pyIn "Access Denied" r.text || pyIn "access denied" (pyLower r.text) then
        .err (.connectionError "Access denied by ATM Milano API (blocked by protection)")
      else
        .err (.apiError "API returned HTML instead of JSON")
    else
      match r.jsonBody with
      | .contentTypeError m =>
        .err (.connectionError ("Error connecting to ATM Milano API: " ++ m))
      | .decodeError m => .uncaught ("json.JSONDecodeError: " ++ m)
      | .ok data =>
        match data with
        | .obj fields =>
          if ¬ jsonHasKey fields "Description" then
            .err (.apiError "Invalid response: missing \x27Description\x27 field")
          else if ¬ jsonHasKey fields "Lines" then
            .err (.apiError "Invalid response: missing \x27Lines\x27 field")
          else .ok (.obj fields)
        | _ => .err (.apiError "Invalid response format: expected dictionary")

/-! ## sensor.py: the per-line entity projection of async_setup_entry -/

/-- Python `str()` as applied by `str(line.get("Direction", "0"))` and by
the f-string `f"{line_code}_{direction}"`.  It is exact for the scalar
values the upstream API places in `LineCode` and `Direction` (JSON
strings, integers, booleans, null); for containers Python would render a
`repr`, which no property here depends on, so a marker is used. -/
def pyStr : JsonValue → String
  | .str s => s
  | .num n => toString n
  | .bool true => "True"
  | .bool false => "False"
  | .null => "None"
  | .arr _ => "<list>"
  | .obj _ => "<dict>"

/-- Python `obj.get(key, default)` on a parsed value: returns the value
of the first (unique) matching key of a dict, the default when the key
is absent, and raises `AttributeError` when the receiver is not a dict
(modelled as `Except.error`). -/
def jsonGetD (j : JsonValue) (k : String) (dflt : JsonValue) :
    Except String JsonValue :=
  match j with
  | .obj fs =>
    .ok (match fs.find? (fun p => p.1 == k) with
         | some p => p.2
         | none => dflt)
  | _ => .error "AttributeError: get"

/-- Python `obj.get(key)` with the implicit `None` default, used for
`line_info.get("TransportMode")`; `none` stands for Python `None`. -/
def jsonGetN (j : JsonValue) (k : String) :
    Except String (Option JsonValue) :=
  match j with
  | .obj fs => .ok ((fs.find? (fun p => p.1 == k)).map (fun p => p.2))
  | _ => .error "AttributeError: get"

/-- The constructor arguments of one `ATMLineSensor` as extracted by the
loop body of `async_setup_entry`: `line_code` is passed unconverted,
`direction` has been through `str()`. -/
structure SensorSpec where
  line_code : JsonValue
  direction : String
  line_description : JsonValue
  transport_mode : Option JsonValue
  deriving Repr

/-- The deduplication key of one sensor, `f"{stop_id}_{line_code}_{direction}"`
without the stop prefix: the underscore join used by both the
`seen_keys` check and the unique id. -/
def specKey (sp : SensorSpec) : String :=
  pyStr sp.line_code ++ "_" ++ sp.direction

/-- The underscore-joined `entity_key` the loop computes for one raw line
entry: `f"{line_code}_{direction}"` with
`line_code = line.get("Line", \x7b\x7d).get("LineCode", "")` and
`direction = str(line.get("Direction", "0"))`. -/
def lineKey (line : JsonValue) : Except String String :=
  match jsonGetD line "Line" (.obj []) with
  | .error e => .error e
  | .ok li =>
    match jsonGetD li "LineCode" (.str "") with
    | .error e => .error e
    | .ok lc =>
      match jsonGetD line "Direction" (.str "0") with
      | .error e => .error e
      | .ok d => .ok (pyStr lc ++ "_" ++ pyStr d)

/-- The `ATMLineSensor` constructor arguments built from one raw line
entry, as the loop body builds them. -/
def buildOne (line : JsonValue) : Except String SensorSpec :=
  match jsonGetD line "Line" (.obj []) with
  | .error e => .error e
  | .ok li =>
    match jsonGetD li "LineCode" (.str "") with
    | .error e => .error e
    | .ok lc =>
      match jsonGetD line "Direction" (.str "0") with
      | .error e => .error e
      | .ok d =>
        match jsonGetD li "LineDescription" (.str "") with
        | .error e => .error e
        | .ok ld =>
          match jsonGetN li "TransportMode" with
          | .error e => .error e
          | .ok tm => .ok ⟨lc, pyStr d, ld, tm⟩

/-- `sensor.py`: the projection loop of `async_setup_entry` over
`coordinator.data["Lines"]`.  `seen` is the `seen_keys` set (a list with
membership semantics); a line whose `entity_key` was already seen is
skipped (`continue`), otherwise the key is added and a sensor is
appended.  The field reads happen in source order: `Line`, `LineCode`
and `Direction` are read before the `seen_keys` test, `LineDescription`
and `TransportMode` only afterwards, inside the `ATMLineSensor` call. -/
def buildEntities : List JsonValue → List String → Except String (List SensorSpec)
  | [], _ => .ok []
  | line :: rest, seen =>
    match jsonGetD line "Line" (.obj []) with
    | .error e => .error e
    | .ok li =>
      match jsonGetD li "LineCode" (.str "") with
      | .error e => .error e
      | .ok lc =>
        match jsonGetD line "Direction" (.str "0") with
        | .error e => .error e
        | .ok d =>
          if seen.contains (pyStr lc ++ "_" ++ pyStr d) then
            buildEntities rest seen
          else
            match jsonGetD li "LineDescription" (.str "") with
            | .error e => .error e
            | .ok ld =>
              match jsonGetN li "TransportMode" with
              | .error e => .error e
              | .ok tm =>
                match buildEntities rest ((pyStr lc ++ "_" ++ pyStr d) :: seen) with
                | .error e => .error e
                | .ok es => .ok (⟨lc, pyStr d, ld, tm⟩ :: es)

/-- Whether a raw line entry has the underscore-joined `entity_key` `k`. -/
def lineKeyIs (k : String) (line : JsonValue) : Bool :=
  match lineKey line with
  | .ok k2 => k2 == k
  | .error _ => false

/-- A line entry with `LineCode` `"a_b"` and `Direction` `"c"`; its
underscore-joined `entity_key` is `"a_b_c"`. -/
def cexLineA : JsonValue :=
  .obj [("Line", .obj [("LineCode", .str "a_b")]), ("Direction", .str "c")]

/-- A line entry with `LineCode` `"a"` and `Direction` `"b_c"`; a
distinct `(lineCode, direction)` pair whose underscore-joined
`entity_key` is also `"a_b_c"`. -/
def cexLineB : JsonValue :=
  .obj [("Line", .obj [("LineCode", .str "a")]), ("Direction", .str "b_c")]

/-! ## Helper lemmas -/

theorem dropWhile_append_of_all {α : Type} {p : α → Bool} {w l : List α}
    (hw : ∀ c ∈ w, p c = true) :
    (w ++ l).dropWhile p = l.dropWhile p := by
  induction w with
  | nil => rfl
  | cons a w ih =>
    simp only [List.cons_append,
      List.dropWhile_cons_of_pos (hw a (List.mem_cons_self a w))]
    exact ih (fun c hc => hw c (List.mem_cons_of_mem a hc))

theorem takeWhile_append_of_all {α : Type} {p : α → Bool} {w l : List α}
    (hw : ∀ c ∈ w, p c = true) :
    (w ++ l).takeWhile p = w ++ l.takeWhile p := by
  induction w with
  | nil => rfl
  | cons a w ih =>
    simp only [List.cons_append,
      List.takeWhile_cons_of_pos (hw a (List.mem_cons_self a w))]
    exact congrArg (a :: ·) (ih (fun c hc => hw c (List.mem_cons_of_mem a hc)))

theorem dropWhile_eq_self_of_head {α : Type} {p : α → Bool} {l : List α}
    (h : ∀ c, l.head? = some c → p c = false) :
    l.dropWhile p = l := by
  cases l with
  | nil => rfl
  | cons a l =>
    exact List.dropWhile_cons_of_neg (by simp [h a rfl])

theorem takeWhile_eq_nil_of_head {α : Type} {p : α → Bool} {l : List α}
    (h : ∀ c, l.head? = some c → p c = false) :
    l.takeWhile p = [] := by
  cases l with
  | nil => rfl
  | cons a l =>
    exact List.takeWhile_cons_of_neg (by simp [h a rfl])

theorem isPySpace_of_isDigitA {c : Char} (h : isDigitA c = true) :
    isPySpace c = false := by
  simp only [isDigitA, decide_eq_true_eq] at h
  simp only [isPySpace, decide_eq_false_iff_not]
  omega

theorem isDigitA_of_isPySpace {c : Char} (h : isPySpace c = true) :
    isDigitA c = false := by
  simp only [isPySpace, decide_eq_true_eq] at h
  simp only [isDigitA, decide_eq_false_iff_not]
  omega

theorem isPySpace_of_mM {c : Char} (h : c = 'm' ∨ c = 'M') :
    isPySpace c = false := by
  rcases h with rfl | rfl <;> rfl

theorem isDigitA_of_mM {c : Char} (h : c = 'm' ∨ c = 'M') :
    isDigitA c = false := by
  rcases h with rfl | rfl <;> rfl

theorem isPySpace_of_nN {c : Char} (h : c = 'n' ∨ c = 'N') :
    isPySpace c = false := by
  rcases h with rfl | rfl <;> rfl

theorem matchWaitMinutes_leading (d w2 t : List Char) (c1 c2 c3 : Char)
    (hd : d ≠ []) (hdd : ∀ c ∈ d, isDigitA c = true)
    (hw2 : ∀ c ∈ w2, isPySpace c = true)
    (h1 : c1 = 'm' ∨ c1 = 'M') (h2 : c2 = 'i' ∨ c2 = 'I')
    (h3 : c3 = 'n' ∨ c3 = 'N') :
    matchWaitMinutes (d ++ w2 ++ c1 :: c2 :: c3 :: t) = some (digitsToNat d) := by
  obtain ⟨c0, d', rfl⟩ : ∃ c0 d', d = c0 :: d' := by
    cases d with
    | nil => exact absurd rfl hd
    | cons a l => exact ⟨a, l, rfl⟩
  rw [List.append_assoc]
  have hc0 : isDigitA c0 = true := hdd c0 (List.mem_cons_self c0 d')
  have hws : ((c0 :: d') ++ (w2 ++ c1 :: c2 :: c3 :: t)).dropWhile isPySpace =
      (c0 :: d') ++ (w2 ++ c1 :: c2 :: c3 :: t) :=
    dropWhile_eq_self_of_head (fun c hc => by
      simp only [List.cons_append, List.head?_cons, Option.some.injEq] at hc
      subst hc; exact isPySpace_of_isDigitA hc0)
  have htk2 : (w2 ++ c1 :: c2 :: c3 :: t).takeWhile isDigitA = [] := by
    cases w2 with
    | nil =>
      exact takeWhile_eq_nil_of_head (fun c hc => by
        simp only [List.nil_append, List.head?_cons, Option.some.injEq] at hc
        subst hc; exact isDigitA_of_mM h1)
    | cons a w =>
      exact takeWhile_eq_nil_of_head (fun c hc => by
        simp only [List.cons_append, List.head?_cons, Option.some.injEq] at hc
        subst hc
        exact isDigitA_of_isPySpace (hw2 a (List.mem_cons_self a w)))
  have htk : ((c0 :: d') ++ (w2 ++ c1 :: c2 :: c3 :: t)).takeWhile isDigitA =
      c0 :: d' := by
    rw [takeWhile_append_of_all hdd, htk2, List.append_nil]
  have hdr2 : (w2 ++ c1 :: c2 :: c3 :: t).dropWhile isDigitA =
      w2 ++ c1 :: c2 :: c3 :: t := by
    cases w2 with
    | nil =>
      exact dropWhile_eq_self_of_head (fun c hc => by
        simp only [List.nil_append, List.head?_cons, Option.some.injEq] at hc
        subst hc; exact isDigitA_of_mM h1)
    | cons a w =>
      exact dropWhile_eq_self_of_head (fun c hc => by
        simp only [List.cons_append, List.head?_cons, Option.some.injEq] at hc
        subst hc
        exact isDigitA_of_isPySpace (hw2 a (List.mem_cons_self a w)))
  have hdr : (((c0 :: d') ++ (w2 ++ c1 :: c2 :: c3 :: t)).dropWhile
      isDigitA).dropWhile isPySpace = c1 :: c2 :: c3 :: t := by
    rw [dropWhile_append_of_all hdd, hdr2, dropWhile_append_of_all hw2]
    exact List.dropWhile_cons_of_neg (by simp [isPySpace_of_mM h1])
  simp only [matchWaitMinutes, hws, htk, hdr, List.isEmpty_cons,
    Bool.false_eq_true, if_false]
  rw [if_pos ⟨h1, h2, h3⟩]

theorem rstrip_append_of_all {p : Char → Bool} {l w : List Char}
    (hw : ∀ c ∈ w, p c = true)
    (hl : ∀ c, l.getLast? = some c → p c = false) :
    ((l ++ w).reverse.dropWhile p).reverse = l := by
  rw [List.reverse_append,
    dropWhile_append_of_all (fun c hc => hw c (List.mem_reverse.mp hc)),
    dropWhile_eq_self_of_head (fun c hc => hl c (by rwa [List.head?_reverse] at hc)),
    List.reverse_reverse]

theorem pyStripL_minutes (w1 d w2 w3 : List Char) (c1 c2 c3 : Char)
    (hw1 : ∀ c ∈ w1, isPySpace c = true) (hw3 : ∀ c ∈ w3, isPySpace c = true)
    (hd : d ≠ []) (hdd : ∀ c ∈ d, isDigitA c = true)
    (h3 : c3 = 'n' ∨ c3 = 'N') :
    pyStripL (w1 ++ d ++ w2 ++ c1 :: c2 :: c3 :: w3) = d ++ w2 ++ [c1, c2, c3] := by
  obtain ⟨c0, d', rfl⟩ : ∃ c0 d', d = c0 :: d' := by
    cases d with
    | nil => exact absurd rfl hd
    | cons a l => exact ⟨a, l, rfl⟩
  have hc0 : isDigitA c0 = true := hdd c0 (List.mem_cons_self c0 d')
  rw [List.append_assoc, List.append_assoc]
  have e1 : (w1 ++ ((c0 :: d') ++ (w2 ++ c1 :: c2 :: c3 :: w3))).dropWhile isPySpace
      = (c0 :: d') ++ (w2 ++ c1 :: c2 :: c3 :: w3) := by
    rw [dropWhile_append_of_all hw1]
    exact dropWhile_eq_self_of_head (fun c hc => by
      simp only [List.cons_append, List.head?_cons, Option.some.injEq] at hc
      subst hc; exact isPySpace_of_isDigitA hc0)
  have hsplit : (c0 :: d') ++ (w2 ++ c1 :: c2 :: c3 :: w3) =
      ((c0 :: d') ++ (w2 ++ [c1, c2, c3])) ++ w3 := by
    simp [List.append_assoc]
  have hlast : ((c0 :: d') ++ (w2 ++ [c1, c2, c3])).getLast? = some c3 := by
    rw [List.getLast?_append, List.getLast?_append]
    have h3l : [c1, c2, c3].getLast? = some c3 := rfl
    rw [h3l]
    simp
  simp only [pyStripL]
  rw [e1, hsplit, rstrip_append_of_all hw3 (fun c hc => by
    rw [hlast] at hc
    simp only [Option.some.injEq] at hc
    subst hc
    exact isPySpace_of_nN h3)]
  simp [List.append_assoc]

theorem pyLowerChar_i_class {c : Char} (h : pyLowerChar c = 'i') :
    isPySpace c = false ∧ isDigitA c = false := by
  by_cases hb : 65 ≤ c.toNat ∧ c.toNat ≤ 90
  · refine ⟨?_, ?_⟩ <;>
      · simp only [isPySpace, isDigitA, decide_eq_false_iff_not]
        omega
  · rw [pyLowerChar, if_neg hb] at h
    subst h
    exact ⟨rfl, rfl⟩

theorem matchWaitMinutes_arrivo_none (l : List Char)
    (h : pyLowerL l = STATUS_IN_ARRIVO.data) : matchWaitMinutes l = none := by
  have harr : STATUS_IN_ARRIVO.data = ['i', 'n', ' ', 'a', 'r', 'r', 'i', 'v', 'o'] := rfl
  cases l with
  | nil => rw [harr] at h; exact absurd h (by simp [pyLowerL])
  | cons a l =>
    have ha : pyLowerChar a = 'i' := by
      have hh := congrArg List.head? h
      rw [harr] at hh
      simp only [pyLowerL, List.map_cons, List.head?_cons, Option.some.injEq] at hh
      exact hh
    obtain ⟨hs, hd⟩ := pyLowerChar_i_class ha
    simp only [matchWaitMinutes,
      List.dropWhile_cons_of_neg (show ¬ isPySpace a = true by simp [hs]),
      List.takeWhile_cons_of_neg (show ¬ isDigitA a = true by simp [hd]),
      List.isEmpty_nil, if_true]

/-! ## Claim theorems: the wait-message parser -/

/-- C1 (code_bug evidence): the claim says `parse` is total and never
raises, with `parse(None)` and `parse("")` yielding `status=unknown_text`.
In the code both calls reach `WaitStatus.UNKNOWN_TEXT`, a member that
does not exist on the `WaitStatus` enum of `const.py`, so both raise
`AttributeError` instead of returning a `ParsedWaitMessage`. -/
theorem parse_none_empty_attribute_error :
    parse_wait_message none = .error "AttributeError: UNKNOWN_TEXT" ∧
    parse_wait_message (some "") = .error "AttributeError: UNKNOWN_TEXT" :=
  ⟨rfl, rfl⟩

/-- C2 (code_bug evidence): the claim says the three fixed phrases map to
`arriving`, `recalculating` and `cancelled` results.  In the code the
three phrase branches reference the enum members `IN_ARRIVO`,
`RICALCOLO` and `SOPPRESSA`, none of which exists on `WaitStatus`
(`const.py` names them `ARRIVING`, `UPDATING`, `CANCELLED`), so all three
calls raise `AttributeError` instead of returning. -/
theorem parse_fixed_phrases_attribute_error :
    parse_wait_message (some "In Arrivo") = .error "AttributeError: IN_ARRIVO" ∧
    parse_wait_message (some "RICALCOLO") = .error "AttributeError: RICALCOLO" ∧
    parse_wait_message (some "Soppressa") = .error "AttributeError: SOPPRESSA" :=
  ⟨rfl, rfl, rfl⟩

/-- C3: for every well-formed minute string, i.e. optional surrounding
whitespace, a non-empty digit run `d`, optional interior whitespace and
`min` in any letter case, `parse_wait_message` returns status `MINUTES`,
`wait_minutes` and `state_value` equal to the integer value of `d`, and
unit `"min"`. -/
theorem parse_minutes_wellformed (w1 d w2 w3 : List Char) (c1 c2 c3 : Char)
    (hw1 : ∀ c ∈ w1, isPySpace c = true) (hw2 : ∀ c ∈ w2, isPySpace c = true)
    (hw3 : ∀ c ∈ w3, isPySpace c = true)
    (hd : d ≠ []) (hdd : ∀ c ∈ d, isDigitA c = true)
    (h1 : c1 = 'm' ∨ c1 = 'M') (h2 : c2 = 'i' ∨ c2 = 'I')
    (h3 : c3 = 'n' ∨ c3 = 'N') :
    parse_wait_message (some ⟨w1 ++ d ++ w2 ++ c1 :: c2 :: c3 :: w3⟩) =
      .ok ⟨⟨d ++ w2 ++ [c1, c2, c3]⟩, .int (digitsToNat d), some (digitsToNat d),
        .MINUTES, some "min"⟩ := by
  have hstrip := pyStripL_minutes w1 d w2 w3 c1 c2 c3 hw1 hw3 hd hdd h3
  have hmatch : matchWaitMinutes (d ++ w2 ++ [c1, c2, c3]) = some (digitsToNat d) :=
    matchWaitMinutes_leading d w2 [] c1 c2 c3 hd hdd hw2 h1 h2 h3
  simp only [parse_wait_message, hstrip, hmatch]

/-- Witness for C3 at the concrete input `" 15 Min "`. -/
theorem parse_minutes_wellformed_witness :
    parse_wait_message (some ⟨[' '] ++ ['1', '5'] ++ [' '] ++ 'M' :: 'i' :: 'n' :: [' ']⟩) =
      .ok ⟨⟨['1', '5'] ++ [' '] ++ ['M', 'i', 'n']⟩, .int (digitsToNat ['1', '5']),
        some (digitsToNat ['1', '5']), .MINUTES, some "min"⟩ :=
  parse_minutes_wellformed [' '] ['1', '5'] [' '] [' '] 'M' 'i' 'n'
    (by decide) (by decide) (by decide) (by decide) (by decide)
    (Or.inr rfl) (Or.inl rfl) (Or.inl rfl)

/-- C10: the minutes pattern is not anchored at the end: whenever the
trimmed input begins with a digit run, optional whitespace and `min` in
any letter case, the result has status `MINUTES` and carries the leading
integer, regardless of the trailing text `t`. -/
theorem parse_minutes_unanchored (s : String) (d w2 t : List Char) (c1 c2 c3 : Char)
    (hs : pyStripL s.data = d ++ w2 ++ c1 :: c2 :: c3 :: t)
    (hd : d ≠ []) (hdd : ∀ c ∈ d, isDigitA c = true)
    (hw2 : ∀ c ∈ w2, isPySpace c = true)
    (h1 : c1 = 'm' ∨ c1 = 'M') (h2 : c2 = 'i' ∨ c2 = 'I')
    (h3 : c3 = 'n' ∨ c3 = 'N') :
    parse_wait_message (some s) =
      .ok ⟨⟨d ++ w2 ++ c1 :: c2 :: c3 :: t⟩, .int (digitsToNat d),
        some (digitsToNat d), .MINUTES, some "min"⟩ := by
  have hmatch := matchWaitMinutes_leading d w2 t c1 c2 c3 hd hdd hw2 h1 h2 h3
  simp only [parse_wait_message, hs, hmatch]

/-- Witness for C10 at the concrete input `"5 minuti"` (wait 5). -/
theorem parse_minutes_unanchored_witness :
    parse_wait_message (some "5 minuti") =
      .ok ⟨⟨['5'] ++ [' '] ++ 'm' :: 'i' :: 'n' :: ['u', 't', 'i']⟩,
        .int (digitsToNat ['5']), some (digitsToNat ['5']),
        .MINUTES, some "min"⟩ :=
  parse_minutes_unanchored "5 minuti" ['5'] [' '] ['u', 't', 'i'] 'm' 'i' 'n'
    rfl (by decide) (by decide) (by decide)
    (Or.inl rfl) (Or.inl rfl) (Or.inl rfl)

/-- C4: on every input on which `parse_wait_message` returns a result,
the result has status `MINUTES` exactly when `wait_minutes` is the
integer extracted by the leading numeric pattern from the stripped
input, and status `ARRIVING` exactly when `wait_minutes` is 0 and the
stripped input equals the arriving phrase case-insensitively (`None`
returns no result, so returning inputs are of the form `some s`).  In
particular `"0 min"` yields status `MINUTES`, not `ARRIVING`. -/
theorem parse_ok_status_invariant (s : String) (r : ParsedWaitMessage)
    (h : parse_wait_message (some s) = .ok r) :
    (r.status = WaitStatus.MINUTES ↔
      (matchWaitMinutes (pyStripL s.data)).isSome = true ∧
      r.wait_minutes = matchWaitMinutes (pyStripL s.data)) ∧
    (r.status = WaitStatus.ARRIVING ↔
      r.wait_minutes = some 0 ∧
      pyLowerL (pyStripL s.data) = STATUS_IN_ARRIVO.data) := by
  revert h
  simp only [parse_wait_message]
  cases hm : matchWaitMinutes (pyStripL s.data) with
  | some n =>
    intro h
    injection h with h
    subst h
    refine ⟨by simp, ?_, ?_⟩
    · intro hab; exact absurd hab (by simp)
    · rintro ⟨h0, harr⟩
      rw [matchWaitMinutes_arrivo_none _ harr] at hm
      exact Option.noConfusion hm
  | none =>
    intro h
    exfalso
    split at h
    · rename_i m heq
      exact Option.noConfusion heq
    · split at h
      · exact Except.noConfusion h
      · split at h
        · exact Except.noConfusion h
        · split at h
          · exact Except.noConfusion h
          · exact Except.noConfusion h

/-- Witness for C4 at the concrete input `"0 min"`, whose result has
status `MINUTES` (not `ARRIVING`) with `wait_minutes = some 0`. -/
theorem parse_ok_status_invariant_witness :
    ((⟨"0 min", .int 0, some 0, .MINUTES, some "min"⟩ : ParsedWaitMessage).status =
        WaitStatus.MINUTES ↔
      (matchWaitMinutes (pyStripL ("0 min" : String).data)).isSome = true ∧
      (⟨"0 min", .int 0, some 0, .MINUTES, some "min"⟩ : ParsedWaitMessage).wait_minutes =
        matchWaitMinutes (pyStripL ("0 min" : String).data)) ∧
    ((⟨"0 min", .int 0, some 0, .MINUTES, some "min"⟩ : ParsedWaitMessage).status =
        WaitStatus.ARRIVING ↔
      (⟨"0 min", .int 0, some 0, .MINUTES, some "min"⟩ : ParsedWaitMessage).wait_minutes =
        some 0 ∧
      pyLowerL (pyStripL ("0 min" : String).data) = STATUS_IN_ARRIVO.data) :=
  parse_ok_status_invariant "0 min" ⟨"0 min", .int 0, some 0, .MINUTES, some "min"⟩ rfl

theorem containsSub_map (f : Char → Char) (n h : List Char)
    (hc : containsSub n h = true) : containsSub (n.map f) (h.map f) = true := by
  induction h with
  | nil =>
    simp only [containsSub, List.isEmpty_eq_true] at hc
    subst hc
    rfl
  | cons a h ih =>
    simp only [containsSub, Bool.or_eq_true] at hc
    rcases hc with hp | hrest
    · have hp2 : n.map f <+: (a :: h).map f :=
        (List.isPrefixOf_iff_prefix.mp hp).map f
      simp only [List.map_cons] at hp2
      simp only [List.map_cons, containsSub, Bool.or_eq_true]
      exact Or.inl (List.isPrefixOf_iff_prefix.mpr hp2)
    · simp only [List.map_cons, containsSub, Bool.or_eq_true]
      exact Or.inr (ih hrest)

theorem pyIn_lower (needle hay : String) (hc : pyIn needle hay = true) :
    pyIn (pyLower needle) (pyLower hay) = true :=
  containsSub_map pyLowerChar needle.data hay.data hc

/-! ## Claim theorems: the stop client -/

/-- C5: `async_get_stop` classifies the transport outcome before reading
a body: timeout and connection-level failure yield
`ATMApiConnectionError`, 404 yields `ATMApiInvalidStopError` (and no
payload), 403 yields `ATMApiConnectionError`, and any other non-200
status yields `ATMApiError` carrying the status code. -/
theorem async_get_stop_classifies (sid m : String) (r : HttpResponse) :
    async_get_stop sid .timeout =
      .err (.connectionError "Timeout connecting to ATM Milano API") ∧
    async_get_stop sid (.netError m) =
      .err (.connectionError ("Error connecting to ATM Milano API: " ++ m)) ∧
    (r.status = 404 → async_get_stop sid (.response r) =
      .err (.invalidStopError ("Stop ID " ++ sid ++ " not found"))) ∧
    (r.status = 403 → async_get_stop sid (.response r) =
      .err (.connectionError "Access denied by ATM Milano API (403 Forbidden)")) ∧
    (r.status ≠ 404 → r.status ≠ 403 → r.status ≠ 200 →
      async_get_stop sid (.response r) =
        .err (.apiError ("API returned status " ++ toString r.status))) := by
  refine ⟨rfl, rfl, ?_, ?_, ?_⟩
  · intro h404
    simp only [async_get_stop]
    rw [if_pos h404]
  · intro h403
    simp only [async_get_stop]
    rw [if_neg (by simp [h403]), if_pos h403]
  · intro h404 h403 h200
    simp only [async_get_stop]
    rw [if_neg h404, if_neg h403, if_pos h200]

/-- Witness for C5 at a concrete 500 response. -/
theorem async_get_stop_classifies_witness :
    async_get_stop "123" (.response ⟨500, "", "", .ok JsonValue.null⟩) =
      .err (.apiError ("API returned status " ++ toString (500 : Nat))) :=
  (async_get_stop_classifies "123" "boom" ⟨500, "", "", .ok JsonValue.null⟩).2.2.2.2
    (by decide) (by decide) (by decide)

/-- C6: for every 200 response whose Content-Type contains `text/html`,
the body is inspected: if it contains `access denied` case-insensitively
the call fails with `ATMApiConnectionError`, otherwise with
`ATMApiError` (unexpected content type); it never returns a payload.
The source condition also tests the exact text `Access Denied`, which is
subsumed by the case-insensitive test. -/
theorem async_get_stop_html (sid : String) (r : HttpResponse)
    (h200 : r.status = 200) (hct : pyIn "text/html" r.contentType = true) :
    (pyIn "access denied" (pyLower r.text) = true →
      async_get_stop sid (.response r) =
        .err (.connectionError "Access denied by ATM Milano API (blocked by protection)")) ∧
    (pyIn "access denied" (pyLower r.text) = false →
      async_get_stop sid (.response r) =
        .err (.apiError "API returned HTML instead of JSON")) ∧
    (∀ j, async_get_stop sid (.response r) ≠ .ok j) := by
  have hred : async_get_stop sid (.response r) =
      (if pyIn "Access Denied" r.text || pyIn "access denied" (pyLower r.text) then
        .err (.connectionError "Access denied by ATM Milano API (blocked by protection)")
      else
        .err (.apiError "API returned HTML instead of JSON")) := by
    simp only [async_get_stop]
    rw [if_neg (by simp [h200]), if_neg (by simp [h200]),
      if_neg (show ¬ r.status ≠ 200 by simp [h200]), if_pos hct]
  refine ⟨?_, ?_, ?_⟩
  · intro hmk
    rw [hred, if_pos (by simp [hmk])]
  · intro hmk
    have hleft : pyIn "Access Denied" r.text = false := by
      by_contra hc
      have hc2 : pyIn "Access Denied" r.text = true := by
        cases hb : pyIn "Access Denied" r.text
        · exact absurd hb hc
        · rfl
      have hlow := pyIn_lower "Access Denied" r.text hc2
      rw [show pyLower "Access Denied" = "access denied" from rfl] at hlow
      rw [hlow] at hmk
      exact Bool.noConfusion hmk
    rw [hred, if_neg (by simp [hmk, hleft])]
  · intro j
    rw [hred]
    split <;> exact fun hx => FetchOutcome.noConfusion hx

/-- Witness for C6 at a concrete blocked HTML response. -/
theorem async_get_stop_html_witness :
    async_get_stop "99" (.response ⟨200, "text/html; charset=utf-8",
      "<html>Access Denied</html>", .ok JsonValue.null⟩) =
      .err (.connectionError "Access denied by ATM Milano API (blocked by protection)") :=
  (async_get_stop_html "99" ⟨200, "text/html; charset=utf-8",
      "<html>Access Denied</html>", .ok JsonValue.null⟩ rfl (by decide)).1 (by decide)

/-- C7 (code_bug evidence): a 200 response with a JSON Content-Type whose
body is not valid JSON makes `response.json()` raise
`json.JSONDecodeError`, which is neither `asyncio.TimeoutError` nor
`aiohttp.ClientError`, so it escapes `async_get_stop` untyped instead of
becoming the `ATMApiError` the claim requires. -/
theorem async_get_stop_bad_json_uncaught :
    async_get_stop "123" (.response ⟨200, "application/json", "not json",
      .decodeError "Expecting value: line 1 column 1 (char 0)"⟩) =
      .uncaught "json.JSONDecodeError: Expecting value: line 1 column 1 (char 0)" := rfl

/-- C9: round trip: a syntactically valid 200 payload containing a
description `"X"` and one line entry whose `WaitMessage` is `"5 min"`
is returned whole by `async_get_stop`, and `parse_wait_message` applied
to that wait message yields `wait_minutes = 5`. -/
theorem async_get_stop_round_trip (sid ct tx : String)
    (fields lfields : List (String × JsonValue))
    (hct : pyIn "text/html" ct = false)
    (hdesc : ("Description", JsonValue.str "X") ∈ fields)
    (hlines : ("Lines", JsonValue.arr [JsonValue.obj lfields]) ∈ fields)
    (_hwm : ("WaitMessage", JsonValue.str "5 min") ∈ lfields) :
    async_get_stop sid (.response ⟨200, ct, tx, .ok (.obj fields)⟩) =
      .ok (.obj fields) ∧
    parse_wait_message (some "5 min") =
      .ok ⟨"5 min", .int 5, some 5, .MINUTES, some "min"⟩ := by
  constructor
  · have hhd : jsonHasKey fields "Description" = true :=
      List.any_eq_true.mpr ⟨_, hdesc, by simp⟩
    have hhl : jsonHasKey fields "Lines" = true :=
      List.any_eq_true.mpr ⟨_, hlines, by simp⟩
    simp only [async_get_stop]
    rw [if_neg (by decide), if_neg (by decide),
      if_neg (show ¬ (200 : Nat) ≠ 200 by decide), if_neg (by simp [hct]),
      if_neg (by simp [hhd]), if_neg (by simp [hhl])]
  · rfl

/-- Witness for C9 at a concrete payload. -/
theorem async_get_stop_round_trip_witness :
    async_get_stop "321" (.response ⟨200, "application/json", "",
      .ok (.obj [("Description", .str "X"),
        ("Lines", .arr [.obj [("WaitMessage", .str "5 min")]])])⟩) =
      .ok (.obj [("Description", .str "X"),
        ("Lines", .arr [.obj [("WaitMessage", .str "5 min")]])]) ∧
    parse_wait_message (some "5 min") =
      .ok ⟨"5 min", .int 5, some 5, .MINUTES, some "min"⟩ :=
  async_get_stop_round_trip "321" "application/json" ""
    [("Description", .str "X"), ("Lines", .arr [.obj [("WaitMessage", .str "5 min")]])]
    [("WaitMessage", .str "5 min")] (by decide)
    (List.mem_cons_self _ _)
    (List.mem_cons_of_mem _ (List.mem_cons_self _ _))
    (List.mem_cons_self _ _)

/-! ## Claim theorems: the entity projection -/

theorem buildEntities_go_spec (lines : List JsonValue) :
    ∀ (seen : List String) (es : List SensorSpec),
    buildEntities lines seen = .ok es →
    (∀ sp ∈ es, seen.contains (specKey sp) = false) ∧
    (∀ k, seen.contains k = false →
      (List.countP (fun sp => specKey sp == k) es =
        if lines.any (lineKeyIs k) then 1 else 0) ∧
      (∀ sp ∈ es, specKey sp = k →
        ∃ l0, lines.find? (lineKeyIs k) = some l0 ∧ buildOne l0 = .ok sp)) := by
  induction lines with
  | nil =>
    intro seen es h
    simp only [buildEntities] at h
    injection h with h
    subst h
    refine ⟨fun sp hsp => absurd hsp (List.not_mem_nil sp), fun k _ => ⟨?_, ?_⟩⟩
    · simp
    · intro sp hsp
      exact absurd hsp (List.not_mem_nil sp)
  | cons line rest ih =>
    intro seen es h
    simp only [buildEntities] at h
    split at h
    · exact Except.noConfusion h
    · rename_i li hLi
      split at h
      · exact Except.noConfusion h
      · rename_i lc hLc
        split at h
        · exact Except.noConfusion h
        · rename_i d hD
          have hlk : lineKey line = .ok (pyStr lc ++ "_" ++ pyStr d) := by
            simp only [lineKey, hLi, hLc, hD]
          split at h
          · -- already seen: the line is skipped
            rename_i hseen
            obtain ⟨ih1, ih2⟩ := ih seen es h
            refine ⟨ih1, fun k hk => ?_⟩
            have hkne : (pyStr lc ++ "_" ++ pyStr d) ≠ k := by
              intro hckk
              rw [hckk] at hseen
              rw [hseen] at hk
              exact Bool.noConfusion hk
            have hpl : lineKeyIs k line = false := by
              simp only [lineKeyIs, hlk]
              exact beq_eq_false_iff_ne.mpr hkne
            obtain ⟨ihc, ihf⟩ := ih2 k hk
            refine ⟨?_, ?_⟩
            · rw [List.any_cons, hpl, Bool.false_or]
              exact ihc
            · intro sp hsp hspk
              obtain ⟨l0, hfind, hbuild⟩ := ihf sp hsp hspk
              exact ⟨l0, by rw [List.find?_cons_of_neg _ (by simp [hpl]), hfind],
                hbuild⟩
          · -- new key: a sensor is appended
            rename_i hseen
            split at h
            · exact Except.noConfusion h
            · rename_i ld hLd
              split at h
              · exact Except.noConfusion h
              · rename_i tm hTm
                split at h
                · exact Except.noConfusion h
                · rename_i es' hrec
                  injection h with h
                  subst h
                  have hbo : buildOne line = .ok ⟨lc, pyStr d, ld, tm⟩ := by
                    simp only [buildOne, hLi, hLc, hD, hLd, hTm]
                  have hsp0 : specKey (⟨lc, pyStr d, ld, tm⟩ : SensorSpec) =
                      pyStr lc ++ "_" ++ pyStr d := rfl
                  obtain ⟨ih1, ih2⟩ :=
                    ih ((pyStr lc ++ "_" ++ pyStr d) :: seen) es' hrec
                  have hseenF : seen.contains (pyStr lc ++ "_" ++ pyStr d) = false := by
                    cases hb : seen.contains (pyStr lc ++ "_" ++ pyStr d)
                    · rfl
                    · exact absurd hb hseen
                  have hes'ne : ∀ sp ∈ es',
                      specKey sp ≠ pyStr lc ++ "_" ++ pyStr d := by
                    intro sp hsp hcon
                    have hc1 := ih1 sp hsp
                    rw [List.contains_cons, hcon] at hc1
                    simp at hc1
                  refine ⟨?_, ?_⟩
                  · intro sp hsp
                    rcases List.mem_cons.mp hsp with rfl | hsp2
                    · rw [hsp0]; exact hseenF
                    · have hc1 := ih1 sp hsp2
                      rw [List.contains_cons] at hc1
                      exact (Bool.or_eq_false_iff.mp hc1).2
                  · intro k hk
                    by_cases hkk : k = pyStr lc ++ "_" ++ pyStr d
                    · have hpl : lineKeyIs k line = true := by
                        simp only [lineKeyIs, hlk]
                        rw [hkk]
                        exact beq_self_eq_true _
                      refine ⟨?_, ?_⟩
                      · rw [List.countP_cons]
                        have hz : List.countP (fun sp => specKey sp == k) es' = 0 :=
                          List.countP_eq_zero.mpr (fun sp hsp => by
                            simp only [Bool.not_eq_true, beq_eq_false_iff_ne]
                            rw [hkk]
                            exact hes'ne sp hsp)
                        rw [hz, List.any_cons, hpl, Bool.true_or]
                        simp [hsp0, hkk]
                      · intro sp hsp hspk
                        rcases List.mem_cons.mp hsp with rfl | hsp2
                        · exact ⟨line, List.find?_cons_of_pos _ hpl, hbo⟩
                        · exact absurd hspk (by rw [hkk]; exact hes'ne sp hsp2)
                    · have hpl : lineKeyIs k line = false := by
                        simp only [lineKeyIs, hlk]
                        exact beq_eq_false_iff_ne.mpr (fun hc => hkk hc.symm)
                      have hk2 : ((pyStr lc ++ "_" ++ pyStr d) :: seen).contains k
                          = false := by
                        rw [List.contains_cons]
                        simp only [Bool.or_eq_false_iff]
                        exact ⟨beq_eq_false_iff_ne.mpr hkk, hk⟩
                      obtain ⟨ihc, ihf⟩ := ih2 k hk2
                      refine ⟨?_, ?_⟩
                      · rw [List.countP_cons]
                        have hne : (specKey (⟨lc, pyStr d, ld, tm⟩ : SensorSpec)
                            == k) = false := by
                          rw [hsp0]
                          exact beq_eq_false_iff_ne.mpr (fun hc => hkk hc.symm)
                        rw [hne, List.any_cons, hpl, Bool.false_or]
                        simp only [Bool.false_eq_true, if_false, Nat.add_zero]
                        exact ihc
                      · intro sp hsp hspk
                        rcases List.mem_cons.mp hsp with rfl | hsp2
                        · exact absurd hspk (by
                            rw [hsp0] at hspk ⊢
                            exact fun hc => hkk hc.symm)
                        · obtain ⟨l0, hfind, hbuild⟩ := ihf sp hsp2 hspk
                          exact ⟨l0,
                            by rw [List.find?_cons_of_neg _ (by simp [hpl]), hfind],
                            hbuild⟩

/-- C8 (counterexample): the input `[cexLineA, cexLineB, cexLineB]` has
two entries (the second and third, which are equal) sharing the
`(lineCode, direction)` pair `(str "a", "b_c")`, yet the projection
creates no sensor at all for that pair: the underscore-joined key of
`cexLineB` collides with that of `cexLineA` (`"a_b_c"` both), so only
the sensor of the first entry, with pair `(str "a_b", "c")`, is built. -/
theorem build_entities_collision_cex :
    buildEntities [cexLineA, cexLineB, cexLineB] [] =
      .ok [⟨JsonValue.str "a_b", "c", JsonValue.str "", none⟩] ∧
    lineKey cexLineA = .ok "a_b_c" ∧
    lineKey cexLineB = .ok "a_b_c" ∧
    List.countP
      (fun (sp : SensorSpec) => (match sp.line_code with
        | JsonValue.str s => s == "a"
        | _ => false) && sp.direction == "b_c")
      [⟨JsonValue.str "a_b", "c", JsonValue.str "", none⟩] = 0 :=
  ⟨rfl, rfl, rfl, rfl⟩

/-- C8 (amended): the projection creates exactly one sensor per distinct
underscore-joined key string `f"{lineCode}_{direction}"` occurring in
the line list, built from the first entry in input order whose joined
key equals it.  When no two distinct `(lineCode, direction)` pairs
collide under the join, this coincides with one sensor per pair, first
occurrence winning. -/
theorem build_entities_amended (lines : List JsonValue) (es : List SensorSpec)
    (l : JsonValue) (k : String)
    (h : buildEntities lines [] = .ok es) (hl : l ∈ lines)
    (hk : lineKey l = .ok k) :
    List.countP (fun sp => specKey sp == k) es = 1 ∧
    ∀ sp ∈ es, specKey sp = k →
      ∃ l0, lines.find? (lineKeyIs k) = some l0 ∧ buildOne l0 = .ok sp := by
  obtain ⟨-, h2⟩ := buildEntities_go_spec lines [] es h
  obtain ⟨hc, hf⟩ := h2 k rfl
  have hany : lines.any (lineKeyIs k) = true :=
    List.any_eq_true.mpr ⟨l, hl, by simp [lineKeyIs, hk]⟩
  rw [hany] at hc
  exact ⟨by simpa using hc, hf⟩

/-- Witness for C8 (amended) at the collision input: the joined key
`"a_b_c"` yields exactly one sensor. -/
theorem build_entities_amended_witness :
    List.countP (fun sp => specKey sp == "a_b_c")
      [(⟨JsonValue.str "a_b", "c", JsonValue.str "", none⟩ : SensorSpec)] = 1 :=
  (build_entities_amended [cexLineA, cexLineB, cexLineB]
    [⟨JsonValue.str "a_b", "c", JsonValue.str "", none⟩] cexLineA "a_b_c"
    rfl (List.mem_cons_self _ _) rfl).1
